import Mathlib

/-!
Shallow embedding of the QuickTech in-memory storage module (two revisions of
the same file, called V0 and V1 below) and of the ProfileCard and ReferralCard
React components.  JavaScript `Map` objects are modelled as association lists
that preserve insertion order (`Map.set` replaces in place when the key exists
and appends otherwise; `Map.values()` iterates in insertion order).  `Date`
values are modelled as natural-number timestamps passed explicitly.
-/

namespace QuickTech

/-- Model of a JavaScript `Map` with `Nat` keys: an insertion-ordered
association list. -/
abbrev JsMap (α : Type) := List (Nat × α)

/-- `Map.prototype.get`. -/
def JsMap.get {α : Type} : JsMap α → Nat → Option α
  | [], _ => none
  | (k', v) :: rest, k => if k' = k then some v else JsMap.get rest k

/-- `Map.prototype.set`: replaces the value in place when the key is present,
appends a new entry otherwise. -/
def JsMap.insert {α : Type} : JsMap α → Nat → α → JsMap α
  | [], k, v => [(k, v)]
  | (k', v') :: rest, k, v =>
    if k' = k then (k, v) :: rest else (k', v') :: JsMap.insert rest k v

/-- `Array.from(map.values())`: the stored values in insertion order. -/
def JsMap.values {α : Type} (m : JsMap α) : List α := m.map Prod.snd

/-- The keys of the map in insertion order. -/
def JsMap.keys {α : Type} (m : JsMap α) : List Nat := m.map Prod.fst

/-- `InsertUser` from the shared schema, as consumed by `createUser`. -/
structure InsertUser where
  username : String
  password : String
  name : String
  email : String
  phone : Option String
  address : Option String
deriving DecidableEq

/-- `User` record as built by `MemStorage.createUser`. -/
structure User where
  id : Nat
  username : String
  password : String
  name : String
  email : String
  phone : Option String
  address : Option String
  role : String
  created_at : Nat
deriving DecidableEq

/-- `InsertService` from the shared schema, as consumed by `createService`. -/
structure InsertService where
  name : String
  description : String
  category : String
  price : Nat
  processing_time : String
  requirements : String
  icon : String
  badge : Option String
  badge_color : Option String
deriving DecidableEq

/-- `Service` record as built by `MemStorage.createService`. -/
structure Service where
  id : Nat
  name : String
  description : String
  category : String
  price : Nat
  processing_time : String
  requirements : String
  icon : String
  badge : Option String
  badge_color : Option String
  created_at : Nat
deriving DecidableEq

/-- `InsertOrder`: the caller-supplied part of an order (the schema itself is
not among the reviewed files; per the spec data model an order carries a
`user_id` reference besides the storage-assigned fields). -/
structure InsertOrder where
  user_id : Nat
deriving DecidableEq

/-- `Order` record as built by `MemStorage.createOrder`. -/
structure Order where
  id : Nat
  user_id : Nat
  status : String
  payment_status : String
  created_at : Nat
  updated_at : Nat
deriving DecidableEq

/-- The mutable state of a `MemStorage` instance (the session store is out of
scope). -/
structure MemStorage where
  users : JsMap User
  services : JsMap Service
  orders : JsMap Order
  userIdCounter : Nat
  serviceIdCounter : Nat
  orderIdCounter : Nat
deriving DecidableEq

/-- The state set up at the top of the constructor: empty maps, all counters
at 1 (before any seeding runs). -/
def MemStorage.empty : MemStorage :=
  { users := [], services := [], orders := [],
    userIdCounter := 1, serviceIdCounter := 1, orderIdCounter := 1 }

/-- `MemStorage.getUser`. -/
def MemStorage.getUser (st : MemStorage) (id : Nat) : Option User :=
  st.users.get id

/-- `MemStorage.getUserByUsername`: first stored user whose lowercased
username equals the lowercased query. -/
def MemStorage.getUserByUsername (st : MemStorage) (username : String) : Option User :=
  st.users.values.find? (fun u => u.username.toLower == username.toLower)

/-- `MemStorage.getUserByEmail`: first stored user whose lowercased email
equals the lowercased query. -/
def MemStorage.getUserByEmail (st : MemStorage) (email : String) : Option User :=
  st.users.values.find? (fun u => u.email.toLower == email.toLower)

/-- `MemStorage.createUser`: assigns the current `userIdCounter` as id,
post-increments the counter, fills defaults and stores the user. -/
def MemStorage.createUser (st : MemStorage) (insertUser : InsertUser) (now : Nat) :
    User × MemStorage :=
  let id := st.userIdCounter
  let user : User :=
    { id := id, username := insertUser.username, password := insertUser.password,
      name := insertUser.name, email := insertUser.email,
      phone := insertUser.phone, address := insertUser.address,
      role := "user", created_at := now }
  (user, { st with users := st.users.insert id user, userIdCounter := id + 1 })

/-- `MemStorage.getServices` in the V0 revision: all stored services in
insertion order. -/
def MemStorage.getServices (st : MemStorage) : List Service :=
  st.services.values

/-- `MemStorage.getServicesByCategory`: linear filter of the stored services
on exact category equality. -/
def MemStorage.getServicesByCategory (st : MemStorage) (category : String) : List Service :=
  st.services.values.filter (fun s => s.category == category)

/-- `MemStorage.getService`. -/
def MemStorage.getService (st : MemStorage) (id : Nat) : Option Service :=
  st.services.get id

/-- The service record built by `createService` from an insert payload, a
fresh id and the current time. -/
def mkService (ins : InsertService) (id : Nat) (now : Nat) : Service :=
  { id := id, name := ins.name, description := ins.description,
    category := ins.category, price := ins.price,
    processing_time := ins.processing_time, requirements := ins.requirements,
    icon := ins.icon, badge := ins.badge, badge_color := ins.badge_color,
    created_at := now }

/-- `MemStorage.createService`: assigns the current `serviceIdCounter` as id,
post-increments the counter and stores the service. -/
def MemStorage.createService (st : MemStorage) (ins : InsertService) (now : Nat) :
    Service × MemStorage :=
  let id := st.serviceIdCounter
  let service := mkService ins id now
  (service,
    { st with services := st.services.insert id service, serviceIdCounter := id + 1 })

/-- `MemStorage.getOrders`. -/
def MemStorage.getOrders (st : MemStorage) : List Order :=
  st.orders.values

/-- `MemStorage.getOrdersByUserId`. -/
def MemStorage.getOrdersByUserId (st : MemStorage) (userId : Nat) : List Order :=
  st.orders.values.filter (fun o => o.user_id == userId)

/-- `MemStorage.getOrder`. -/
def MemStorage.getOrder (st : MemStorage) (id : Nat) : Option Order :=
  st.orders.get id

/-- `MemStorage.createOrder`: assigns the current `orderIdCounter` as id,
post-increments the counter, starts both lifecycles at `"pending"` and
stores the order. -/
def MemStorage.createOrder (st : MemStorage) (insertOrder : InsertOrder) (now : Nat) :
    Order × MemStorage :=
  let id := st.orderIdCounter
  let order : Order :=
    { id := id, user_id := insertOrder.user_id, status := "pending",
      payment_status := "pending", created_at := now, updated_at := now }
  (order, { st with orders := st.orders.insert id order, orderIdCounter := id + 1 })

/-- `MemStorage.updateOrderStatus`: looks the order up; on a miss returns
`undefined` and leaves the state alone; on a hit replaces the record with a
copy whose `status` and `updated_at` are refreshed. -/
def MemStorage.updateOrderStatus (st : MemStorage) (id : Nat) (status : String) (now : Nat) :
    Option Order × MemStorage :=
  match st.orders.get id with
  | none => (none, st)
  | some order =>
    let updatedOrder := { order with status := status, updated_at := now }
    (some updatedOrder, { st with orders := st.orders.insert id updatedOrder })

/-- `MemStorage.updatePaymentStatus`: same pattern as `updateOrderStatus` but
for the `payment_status` field. -/
def MemStorage.updatePaymentStatus (st : MemStorage) (id : Nat) (status : String) (now : Nat) :
    Option Order × MemStorage :=
  match st.orders.get id with
  | none => (none, st)
  | some order =>
    let updatedOrder := { order with payment_status := status, updated_at := now }
    (some updatedOrder, { st with orders := st.orders.insert id updatedOrder })

/-- A sequence of `createService` calls (the body of V0's seeding loop and of
V1's `getServices`), returning the created services in call order together
with the final state. -/
def createServicesFold (st : MemStorage) (l : List InsertService) (now : Nat) :
    List Service × MemStorage :=
  match l with
  | [] => ([], st)
  | ins :: rest =>
    let p := st.createService ins now
    let q := createServicesFold p.2 rest now
    (p.1 :: q.1, q.2)

/-- A sequence of `createUser` calls, each with its own timestamp, returning
the created users in call order together with the final state. -/
def MemStorage.createUsers (st : MemStorage) (l : List (InsertUser × Nat)) :
    List User × MemStorage :=
  match l with
  | [] => ([], st)
  | (ins, now) :: rest =>
    let p := st.createUser ins now
    let q := p.2.createUsers rest
    (p.1 :: q.1, q.2)

/-- The literal seed catalog of the V0 revision's `initializeServices`
(37 entries, two of them repeated records). -/
def seedServicesV0 : List InsertService := [
  { name := "Aadhaar-PAN Linking",
    description := "Quick and secure linking of your Aadhaar card with PAN card as per government regulations.",
    category := "Identity",
    price := 300,
    processing_time := "1-2 days",
    requirements := "Aadhaar card, PAN card",
    icon := "fa-link",
    badge := some "Mandatory Service",
    badge_color := some "red" },
  { name := "E-Shram Card",
    description := "Registration and card generation for unorganized workers under the E-Shram portal.",
    category := "Employment",
    price := 200,
    processing_time := "2-3 days",
    requirements := "Aadhaar card, bank details, mobile number",
    icon := "fa-id-badge",
    badge := some "Worker Benefits",
    badge_color := some "green" },
  { name := "Aadhaar Card",
    description := "New applications, corrections, updates and more for your Aadhaar card.",
    category := "Identity",
    price := 500,
    processing_time := "2-3 days",
    requirements := "Address proof, identity proof, and recent photograph",
    icon := "fa-id-card",
    badge := some "Fast Processing",
    badge_color := some "green" },
  { name := "PAN Card",
    description := "Apply for new PAN card, correction in existing card and PAN-Aadhaar linking.",
    category := "Identity",
    price := 750,
    processing_time := "4-5 days",
    requirements := "Identity proof, address proof, and recent photograph",
    icon := "fa-credit-card",
    badge := some "Government Authorized",
    badge_color := some "blue" },
  { name := "Driving License",
    description := "New learner\x27s license, permanent license, renewals and international permits.",
    category := "Licenses",
    price := 1200,
    processing_time := "7-10 days",
    requirements := "Age proof, address proof, identity proof, and medical certificate",
    icon := "fa-id-badge",
    badge := some "Complete Assistance",
    badge_color := some "yellow" },
  { name := "Passport",
    description := "New passport application, renewal and other passport-related services.",
    category := "Travel",
    price := 2500,
    processing_time := "10-15 days",
    requirements := "Address proof, identity proof, birth certificate, and photographs",
    icon := "fa-passport",
    badge := some "Priority Service",
    badge_color := some "red" },
  { name := "Domicile Certificate",
    description := "Obtain residence proof certificate from state government.",
    category := "Certificates",
    price := 1500,
    processing_time := "10-15 days",
    requirements := "Address proof, identity documents, residence proof",
    icon := "fa-home",
    badge := some "State Document",
    badge_color := some "purple" },
  { name := "Income Certificate",
    description := "Get income certification for various purposes.",
    category := "Certificates",
    price := 1200,
    processing_time := "7-10 days",
    requirements := "Income proof, identity documents, bank statements",
    icon := "fa-money-bill",
    badge := some "Income Proof",
    badge_color := some "green" },
  { name := "CSC Education Services",
    description := "PMGDISHA digital literacy, skill development courses, NDLM registration and online educational services.",
    category := "Education",
    price := 400,
    processing_time := "1-2 days",
    requirements := "Educational details, identity proof, and photographs",
    icon := "fa-graduation-cap",
    badge := some "Skill Development",
    badge_color := some "blue" },
  { name := "CSC Utility Services",
    description := "Electricity bill payments, mobile/DTH recharges, water bill payments, and other utility services.",
    category := "Utilities",
    price := 200,
    processing_time := "Same day",
    requirements := "Bill/connection details and payment amount",
    icon := "fa-bolt",
    badge := some "Quick Service",
    badge_color := some "yellow" },
  { name := "CSC Agriculture Services",
    description := "PM-KISAN registration, soil health card, crop insurance, and agricultural advisory services.",
    category := "Agriculture",
    price := 350,
    processing_time := "2-4 days",
    requirements := "Land records, identity proof, and bank account details",
    icon := "fa-seedling",
    badge := some "Farmer Support",
    badge_color := some "green" },
  { name := "CSC G2C Services",
    description := "Government to Citizen services including welfare schemes, MGNREGA job cards, land records, and social security pensions.",
    category := "Government",
    price := 250,
    processing_time := "3-7 days",
    requirements := "Identity proof, address documents, and scheme-specific requirements",
    icon := "fa-id-card",
    badge := some "Government Schemes",
    badge_color := some "blue" },
  { name := "Caste Certificate",
    description := "Documentation and verification for SC/ST/OBC categories certification.",
    category := "Identity",
    price := 300,
    processing_time := "7-10 days",
    requirements := "Identity proof, residence proof, and previous caste certificates if any",
    icon := "fa-id-card",
    badge := some "Government Verified",
    badge_color := some "blue" },
  { name := "Birth Certificate",
    description := "Official documentation for proof of birth and age.",
    category := "Identity",
    price := 400,
    processing_time := "5-7 days",
    requirements := "Hospital records, parents\x27 ID proof",
    icon := "fa-baby",
    badge := some "Essential Document",
    badge_color := some "green" },
  { name := "Death Certificate",
    description := "Legal documentation for proof of death.",
    category := "Legal",
    price := 400,
    processing_time := "3-5 days",
    requirements := "Medical certificate, deceased\x27s ID proof",
    icon := "fa-scroll",
    badge := some "Priority Processing",
    badge_color := some "red" },
  { name := "Marriage Certificate",
    description := "Legal proof of marriage registration.",
    category := "Legal",
    price := 600,
    processing_time := "7-10 days",
    requirements := "Both parties\x27 ID proof, photographs, witness details",
    icon := "fa-rings-wedding",
    badge := some "Legal Document",
    badge_color := some "blue" },
  { name := "GST Registration",
    description := "Business registration for Goods and Services Tax.",
    category := "Business",
    price := 1000,
    processing_time := "3-5 days",
    requirements := "Business details, PAN, address proof",
    icon := "fa-receipt",
    badge := some "Business Essential",
    badge_color := some "purple" },
  { name := "ESIC Registration",
    description := "Employee State Insurance Corporation registration for benefits.",
    category := "Business",
    price := 800,
    processing_time := "5-7 days",
    requirements := "Company details, employee information",
    icon := "fa-shield-alt",
    badge := some "Employee Welfare",
    badge_color := some "green" },
  { name := "PF Registration",
    description := "Provident Fund registration for retirement benefits.",
    category := "Business",
    price := 800,
    processing_time := "5-7 days",
    requirements := "Company registration, employee details",
    icon := "fa-piggy-bank",
    badge := some "Retirement Security",
    badge_color := some "blue" },
  { name := "ITR Filing",
    description := "Income Tax Return filing services.",
    category := "Finance",
    price := 500,
    processing_time := "2-3 days",
    requirements := "Income statements, investment proofs, PAN",
    icon := "fa-file-invoice-dollar",
    badge := some "Tax Compliance",
    badge_color := some "green" },
  { name := "PMAY Application",
    description := "Pradhan Mantri Awas Yojana housing scheme assistance.",
    category := "Welfare",
    price := 300,
    processing_time := "10-15 days",
    requirements := "Income proof, property details, Aadhaar",
    icon := "fa-home",
    badge := some "Housing Scheme",
    badge_color := some "blue" },
  { name := "Ayushman Bharat Card",
    description := "Health insurance under PM-JAY scheme.",
    category := "Healthcare",
    price := 200,
    processing_time := "5-7 days",
    requirements := "Income certificate, Aadhaar, family details",
    icon := "fa-heart",
    badge := some "Healthcare",
    badge_color := some "red" },
  { name := "Pension Certificate",
    description := "Documentation for government pensions and benefits.",
    category := "Welfare",
    price := 400,
    processing_time := "7-10 days",
    requirements := "Service records, Aadhaar, bank details",
    icon := "fa-hand-holding-heart",
    badge := some "Senior Care",
    badge_color := some "purple" },
  { name := "MGNREGA Job Card",
    description := "Rural employment scheme registration.",
    category := "Employment",
    price := 100,
    processing_time := "3-5 days",
    requirements := "Address proof, photographs, bank details",
    icon := "fa-users",
    badge := some "Rural Employment",
    badge_color := some "green" },
  { name := "Property Registration",
    description := "Legal documentation of property ownership.",
    category := "Property",
    price := 2000,
    processing_time := "15-20 days",
    requirements := "Property documents, ID proof, payment details",
    icon := "fa-building",
    badge := some "Legal Property",
    badge_color := some "blue" },
  { name := "Land Records",
    description := "Online access to land ownership records (Bhulekh).",
    category := "Property",
    price := 300,
    processing_time := "2-3 days",
    requirements := "Property details, ID proof",
    icon := "fa-map",
    badge := some "Digital Records",
    badge_color := some "green" },
  { name := "Utility Connections",
    description := "New connections and bill management for electricity, water, and gas.",
    category := "Utilities",
    price := 600,
    processing_time := "7-10 days",
    requirements := "Address proof, ID proof, property documents",
    icon := "fa-plug",
    badge := some "Essential Services",
    badge_color := some "purple" },
  { name := "CSC Healthcare Services",
    description := "Telemedicine, Ayushman Bharat registration, health insurance, and wellness services through CSC-PHCs.",
    category := "Healthcare",
    price := 300,
    processing_time := "1-3 days",
    requirements := "Health records, identity proof, and family details",
    icon := "fa-stethoscope",
    badge := some "Health Support",
    badge_color := some "red" },
  { name := "CSC Digital Services",
    description := "Digital India services including Digi Locker, digital signatures, WiFi Choupal, and PMGDISHA training.",
    category := "Digital",
    price := 450,
    processing_time := "1-2 days",
    requirements := "Digital documents, identity proof, and email address",
    icon := "fa-mobile-alt",
    badge := some "Digital Empowerment",
    badge_color := some "purple" },
  { name := "CSC Travel Services",
    description := "IRCTC train ticket booking, bus tickets, flight tickets, and hotel bookings through CSC centers.",
    category := "Travel",
    price := 250,
    processing_time := "Same day",
    requirements := "Travel details, identity proof, and payment information",
    icon := "fa-train",
    badge := some "Travel Solutions",
    badge_color := some "orange" },
  { name := "Certificates",
    description := "Birth, death, income, caste, domicile and other essential certificates.",
    category := "Government",
    price := 400,
    processing_time := "2-4 days",
    requirements := "Supporting documents depending on certificate type",
    icon := "fa-scroll",
    badge := some "Digital Delivery",
    badge_color := some "green" },
  { name := "Property Documents",
    description := "Land records, property registration, mutation and related services.",
    category := "Property",
    price := 3000,
    processing_time := "15-20 days",
    requirements := "Property details, ownership proof, and identity documents",
    icon := "fa-house-user",
    badge := some "Expert Assistance",
    badge_color := some "blue" },
  { name := "Business Services",
    description := "GST registration, company registration, MSME registration and more.",
    category := "Business",
    price := 5000,
    processing_time := "7-14 days",
    requirements := "Business details, address proof, and identity documents",
    icon := "fa-briefcase",
    badge := some "Business Solutions",
    badge_color := some "indigo" },
  { name := "Domicile Certificate",
    description := "Obtain residence proof certificate from state government.",
    category := "Certificates",
    price := 1500,
    processing_time := "10-15 days",
    requirements := "Address proof, identity documents, residence proof",
    icon := "fa-home",
    badge := some "State Document",
    badge_color := some "purple" },
  { name := "Income Certificate",
    description := "Get income certification for various purposes.",
    category := "Certificates",
    price := 1200,
    processing_time := "7-10 days",
    requirements := "Income proof, identity documents, bank statements",
    icon := "fa-money-bill",
    badge := some "Income Proof",
    badge_color := some "green" },
  { name := "Voter ID",
    description := "Apply for new voter ID or update existing one.",
    category := "Identity",
    price := 800,
    processing_time := "20-30 days",
    requirements := "Age proof, address proof, photographs",
    icon := "fa-id-card",
    badge := some "Electoral ID",
    badge_color := some "blue" },
  { name := "Ration Card",
    description := "Apply for new ration card or modify existing one.",
    category := "Identity",
    price := 1000,
    processing_time := "15-20 days",
    requirements := "Family details, income proof, address proof",
    icon := "fa-card-list",
    badge := some "Essential Document",
    badge_color := some "orange" }
]

/-- V0 `initializeServices`: inserts the whole seed catalog through
`createService`. -/
def MemStorage.seedCatalog (st : MemStorage) (now : Nat) : MemStorage :=
  (createServicesFold st seedServicesV0 now).2

/-- V0 `initializeTestUser`, with the external password hasher passed in as a
function: creates the test and admin users when `testuser` is absent, then
overwrites the admin record in place with role `"admin"`. -/
def MemStorage.seedTestUser (st : MemStorage) (hash : String → String) (now : Nat) :
    MemStorage :=
  match st.getUserByUsername "testuser" with
  | some _ => st
  | none =>
    let p1 := st.createUser
      { username := "testuser", password := hash "password123", name := "Test User",
        email := "test@example.com", phone := some "9876543210",
        address := some "Test Address, Mumbai, India" } now
    let p2 := p1.2.createUser
      { username := "admin", password := hash "admin123", name := "Admin User",
        email := "admin@quicktech.com", phone := some "9876543211",
        address := some "Admin Office, Delhi, India" } now
    let adminUser := p2.1
    { p2.2 with users := p2.2.users.insert adminUser.id { adminUser with role := "admin" } }

/-- The V0 constructor state as far as services are concerned: empty store
with the seed catalog inserted (the asynchronous test-user seeding does not
touch the services map). -/
def seededStateV0 (now : Nat) : MemStorage :=
  MemStorage.empty.seedCatalog now

namespace V1

/-- The literal list returned by the V1 revision's `initializeServices`
(11 entries); in V1 this method only returns the list, inserting nothing. -/
def seedServices : List InsertService := [
  { name := "Voter ID Card (EPIC)",
    description := "Apply for new voter ID card or make corrections to existing one",
    category := "Identity",
    price := 100,
    processing_time := "15-20 days",
    requirements := "Age proof, address proof, photographs",
    icon := "fa-id-card",
    badge := some "Electoral Document",
    badge_color := some "blue" },
  { name := "Aadhaar Card",
    description := "Apply for new Aadhaar card or update existing one",
    category := "Identity",
    price := 50,
    processing_time := "10-15 days",
    requirements := "Proof of Identity, Proof of Address, Birth Certificate",
    icon := "fa-id-card",
    badge := some "Essential",
    badge_color := some "green" },
  { name := "PAN Card",
    description := "Apply for new PAN card or request a duplicate",
    category := "Identity",
    price := 150,
    processing_time := "7-10 days",
    requirements := "Identity proof, address proof, photographs",
    icon := "fa-credit-card",
    badge := some "Tax Document",
    badge_color := some "orange" },
  { name := "Birth Certificate",
    description := "Apply for birth certificate or get duplicate copy",
    category := "Identity",
    price := 300,
    processing_time := "5-7 days",
    requirements := "Hospital records, parents\x27 IDs",
    icon := "fa-baby",
    badge := some "Essential",
    badge_color := some "green" },
  { name := "Income Certificate",
    description := "Apply for income certificate for various purposes",
    category := "Financial",
    price := 200,
    processing_time := "7-10 days",
    requirements := "Salary slips, bank statements, employment proof",
    icon := "fa-money-bill",
    badge := some "Income Proof",
    badge_color := some "green" },
  { name := "Domicile Certificate",
    description := "Get proof of residence certificate",
    category := "Identity",
    price := 150,
    processing_time := "10-15 days",
    requirements := "Address proof, residence proof, identity documents",
    icon := "fa-home",
    badge := some "Residence Proof",
    badge_color := some "blue" },
  { name := "Passport",
    description := "Apply for new passport or renewal",
    category := "Identity",
    price := 2500,
    processing_time := "30-45 days",
    requirements := "Identity proof, address proof, birth certificate",
    icon := "fa-passport",
    badge := some "Travel Document",
    badge_color := some "blue" },
  { name := "Marriage Certificate",
    description := "Apply for marriage registration certificate",
    category := "Legal",
    price := 500,
    processing_time := "15-20 days",
    requirements := "Marriage photos, witness IDs, age proof",
    icon := "fa-rings-wedding",
    badge := some "Legal Document",
    badge_color := some "purple" },
  { name := "GST Registration",
    description := "Register your business under GST",
    category := "Business",
    price := 1000,
    processing_time := "3-5 days",
    requirements := "Business PAN, address proof, bank details",
    icon := "fa-receipt",
    badge := some "Business",
    badge_color := some "indigo" },
  { name := "Aadhaar-PAN Linking",
    description := "Quick and secure linking of your Aadhaar card with PAN card",
    category := "Identity",
    price := 50,
    processing_time := "1-2 days",
    requirements := "Aadhaar card, PAN card",
    icon := "fa-link",
    badge := some "Essential",
    badge_color := some "blue" },
  { name := "E-Shram Card",
    description := "Registration for unorganized workers under E-Shram portal",
    category := "Employment",
    price := 100,
    processing_time := "2-3 days",
    requirements := "Aadhaar card, bank details, employment details",
    icon := "fa-id-badge",
    badge := some "Labor Welfare",
    badge_color := some "green" }
]

/-- V1 `MemStorage.getServices`: re-derives the seed list and pushes every
entry through `createService`, returning the newly created records. -/
def MemStorage.getServices (st : QuickTech.MemStorage) (now : Nat) :
    List Service × QuickTech.MemStorage :=
  createServicesFold st seedServices now

end V1

/-! ### ProfileCard component model -/

/-- The three editable profile fields held in the component's `formData`
state (exactly the keys serialized into the request body). -/
structure FormData where
  name : String
  email : String
  phone : String
deriving DecidableEq

/-- An HTTP request as issued by `fetch`, with the JSON body flattened to its
key-value pairs. -/
structure Request where
  method : String
  url : String
  body : List (String × String)
deriving DecidableEq

/-- Outcome of the `fetch` in `handleSave`: resolved with `response.ok`,
resolved with a non-ok response, or rejected. -/
inductive SaveResult where
  | ok
  | httpError
  | networkError
deriving DecidableEq

/-- A toast notification as fired through `useToast`. -/
structure Toast where
  title : String
  description : String
  destructive : Bool
deriving DecidableEq

/-- The local state of `ProfileCard`: the auth-context user values shown in
the non-editing view, the `isEditing` flag and the editable `formData`. -/
structure ProfileCardState where
  user : FormData
  isEditing : Bool
  formData : FormData
deriving DecidableEq

/-- The single request `handleSave` issues: a `PUT` to `/api/user/profile`
whose body is `JSON.stringify(formData)`. -/
def profileRequest (fd : FormData) : Request :=
  { method := "PUT", url := "/api/user/profile",
    body := [("name", fd.name), ("email", fd.email), ("phone", fd.phone)] }

/-- `ProfileCard.handleSave`: issues the request; on `ok` fires the success
toast and leaves edit mode; on any failure (non-ok response or rejected
fetch) the `catch` block fires the destructive toast and changes no state. -/
def handleSave (st : ProfileCardState) (res : SaveResult) :
    ProfileCardState × List Request × List Toast :=
  let req := profileRequest st.formData
  match res with
  | SaveResult.ok =>
    ({ st with isEditing := false }, [req],
     [{ title := "Profile Updated",
        description := "Your profile has been successfully updated.",
        destructive := false }])
  | _ =>
    (st, [req],
     [{ title := "Update Failed",
        description := "Failed to update profile. Please try again.",
        destructive := true }])

/-! ### ReferralCard component model -/

/-- The referral link template literal of `ReferralCard`. -/
def referralLink (origin : String) (code : String) : String :=
  s!"{origin}/auth?ref={code}"

/-- `ReferralCard.copyToClipboard`: the text handed to
`navigator.clipboard.writeText`, the resulting `copied` flag and the toast,
given whether the clipboard write succeeds. -/
def copyToClipboard (origin : String) (code : String) (writeOk : Bool) :
    String × Bool × Toast :=
  (referralLink origin code,
   writeOk,
   if writeOk then
     { title := "Copied!", description := "Referral link copied to clipboard",
       destructive := false }
   else
     { title := "Error", description := "Failed to copy referral link",
       destructive := true })

/-! ### Map lemmas -/

theorem JsMap.get_insert_self {α : Type} (m : JsMap α) (k : Nat) (v : α) :
    (m.insert k v).get k = some v := by
  induction m with
  | nil => simp [JsMap.insert, JsMap.get]
  | cons hd tl ih =>
    obtain ⟨k1, v1⟩ := hd
    by_cases hk : k1 = k
    · simp [JsMap.insert, JsMap.get, hk]
    · simpa [JsMap.insert, JsMap.get, hk] using ih

theorem JsMap.get_insert_ne {α : Type} (m : JsMap α) (k j : Nat) (v : α) (h : j ≠ k) :
    (m.insert k v).get j = m.get j := by
  have hkj : ¬ (k = j) := fun e => h e.symm
  induction m with
  | nil => simp [JsMap.insert, JsMap.get, hkj]
  | cons hd tl ih =>
    obtain ⟨k1, v1⟩ := hd
    by_cases hk : k1 = k
    · subst hk
      simp [JsMap.insert, JsMap.get, hkj]
    · simp [JsMap.insert, JsMap.get, hk, ih]

theorem JsMap.insert_eq_append {α : Type} (m : JsMap α) (k : Nat) (v : α)
    (h : ∀ p ∈ m, p.1 ≠ k) : m.insert k v = m ++ [(k, v)] := by
  induction m with
  | nil => simp [JsMap.insert]
  | cons hd tl ih =>
    have hhd : hd.1 ≠ k := h hd (by simp)
    obtain ⟨k1, v1⟩ := hd
    simp only [JsMap.insert, if_neg hhd, List.cons_append, List.cons.injEq, true_and]
    exact ih fun p hp => h p (by simp [hp])

theorem JsMap.get_eq_none {α : Type} (m : JsMap α) (k : Nat)
    (h : ∀ p ∈ m, p.1 ≠ k) : m.get k = none := by
  induction m with
  | nil => rfl
  | cons hd tl ih =>
    obtain ⟨k1, v1⟩ := hd
    have : k1 ≠ k := h (k1, v1) (by simp)
    simp only [JsMap.get, if_neg this]
    exact ih fun p hp => h p (by simp [hp])

theorem JsMap.get_append {α : Type} (m l : JsMap α) (k : Nat) :
    (m ++ l).get k = ((m.get k).or (l.get k)) := by
  induction m with
  | nil => simp [JsMap.get]
  | cons hd tl ih =>
    obtain ⟨k1, v1⟩ := hd
    by_cases hk : k1 = k <;> simp [JsMap.get, hk, ih]

theorem JsMap.keys_insert_of_get_isSome {α : Type} (m : JsMap α) (k : Nat) (v : α)
    (h : (m.get k).isSome = true) : (m.insert k v).keys = m.keys := by
  induction m with
  | nil => simp [JsMap.get] at h
  | cons hd tl ih =>
    obtain ⟨k1, v1⟩ := hd
    by_cases hk : k1 = k
    · simp [JsMap.insert, JsMap.keys, hk]
    · simp only [JsMap.get, if_neg hk] at h
      have htl := ih h
      simp only [JsMap.keys] at htl
      simp [JsMap.insert, JsMap.keys, hk, htl]

/-! ### Storage invariants and sequential-call lemmas -/

/-- Invariant of the users map: every stored key is below the id counter, every
user is stored under its own id, and the keys are distinct. -/
@[reducible] def UsersInv (st : MemStorage) : Prop :=
  (∀ p ∈ st.users, p.1 < st.userIdCounter ∧ p.2.id = p.1) ∧ st.users.keys.Nodup

/-- Bound part of the services-map invariant: every stored key is below the id
counter. -/
@[reducible] def ServicesBound (st : MemStorage) : Prop :=
  ∀ p ∈ st.services, p.1 < st.serviceIdCounter

theorem createUsers_spec (l : List (InsertUser × Nat)) (st : MemStorage)
    (h : ∀ p ∈ st.users, p.1 < st.userIdCounter) :
    ((st.createUsers l).1).map User.id = List.range' st.userIdCounter l.length ∧
    ((st.createUsers l).2).users =
      st.users ++ ((st.createUsers l).1).map (fun u => (u.id, u)) ∧
    ((st.createUsers l).2).userIdCounter = st.userIdCounter + l.length := by
  induction l generalizing st with
  | nil => simp [MemStorage.createUsers]
  | cons hd tl ih =>
    obtain ⟨ins, now⟩ := hd
    set c := st.userIdCounter with hc
    set u : User :=
      { id := c, username := ins.username, password := ins.password,
        name := ins.name, email := ins.email, phone := ins.phone,
        address := ins.address, role := "user", created_at := now } with hu
    have hins : st.users.insert c u = st.users ++ [(c, u)] :=
      JsMap.insert_eq_append _ _ _ fun p hp => Nat.ne_of_lt (h p hp)
    set st1 : MemStorage :=
      { st with users := st.users.insert c u, userIdCounter := c + 1 } with hst1
    have hstep : st.createUsers ((ins, now) :: tl) =
        ((st.createUser ins now).1 :: (st1.createUsers tl).1, (st1.createUsers tl).2) := rfl
    have h1 : ∀ p ∈ st1.users, p.1 < st1.userIdCounter := by
      intro p hp
      rw [hst1]
      simp only [hins, List.mem_append, List.mem_singleton] at hp
      rcases hp with hp | hp
      · exact Nat.lt_succ_of_lt (h p hp)
      · simp [hp]
    obtain ⟨ih1, ih2, ih3⟩ := ih st1 h1
    refine ⟨?_, ?_, ?_⟩
    · rw [hstep]
      simp only [List.map_cons, ih1]
      have : (st.createUser ins now).1 = u := rfl
      rw [this]
      show u.id :: List.range' (c + 1) tl.length = List.range' c (tl.length + 1)
      rw [List.range'_succ]
    · rw [hstep]
      simp only [ih2, hst1]
      have : (st.createUser ins now).1 = u := rfl
      rw [this]
      simp only [hins]
      rw [List.append_assoc]
      rfl
    · rw [hstep]
      simp only [ih3, hst1]
      show c + 1 + tl.length = c + (tl.length + 1)
      omega

theorem createServicesFold_spec (l : List InsertService) (st : MemStorage) (now : Nat)
    (h : ServicesBound st) :
    (createServicesFold st l now).1 =
      List.zipWith (fun ins i => mkService ins i now) l
        (List.range' st.serviceIdCounter l.length) ∧
    ((createServicesFold st l now).2).services =
      st.services ++ ((createServicesFold st l now).1).map (fun s => (s.id, s)) ∧
    ((createServicesFold st l now).2).serviceIdCounter =
      st.serviceIdCounter + l.length := by
  induction l generalizing st with
  | nil => simp [createServicesFold]
  | cons hd tl ih =>
    set c := st.serviceIdCounter with hc
    set sv := mkService hd c now with hsv
    have hins : st.services.insert c sv = st.services ++ [(c, sv)] :=
      JsMap.insert_eq_append _ _ _ fun p hp => Nat.ne_of_lt (h p hp)
    set st1 : MemStorage :=
      { st with services := st.services.insert c sv, serviceIdCounter := c + 1 } with hst1
    have hstep : createServicesFold st (hd :: tl) now =
        ((st.createService hd now).1 :: (createServicesFold st1 tl now).1,
         (createServicesFold st1 tl now).2) := rfl
    have h1 : ServicesBound st1 := by
      intro p hp
      rw [hst1]
      simp only [hst1, hins, List.mem_append, List.mem_singleton] at hp
      rcases hp with hp | hp
      · exact Nat.lt_succ_of_lt (h p hp)
      · simp [hp]
    obtain ⟨ih1, ih2, ih3⟩ := ih st1 h1
    refine ⟨?_, ?_, ?_⟩
    · rw [hstep]
      simp only [ih1]
      have : (st.createService hd now).1 = sv := rfl
      rw [this]
      simp only [List.length_cons, List.range'_succ]
      rfl
    · rw [hstep]
      simp only [ih2, hst1]
      have : (st.createService hd now).1 = sv := rfl
      rw [this]
      simp only [hins]
      rw [List.append_assoc]
      rfl
    · rw [hstep]
      simp only [ih3, hst1]
      show c + 1 + tl.length = c + (tl.length + 1)
      omega

/-! ### Claim theorems -/

/-- C1: along any sequence of `createUser` calls from a state satisfying the
users-map invariant, the ids of the returned users are strictly increasing in
call order, and the user ids in the resulting store are pairwise distinct. -/
theorem createUser_ids_strictly_increasing_unique
    (st : MemStorage) (l : List (InsertUser × Nat)) (h : UsersInv st) :
    (((st.createUsers l).1).map User.id).Pairwise (· < ·) ∧
    (((st.createUsers l).2).users.map (fun p => p.2.id)).Nodup := by
  obtain ⟨hbound, hnodup⟩ := h
  simp only [JsMap.keys] at hnodup
  obtain ⟨h1, h2, h3⟩ := createUsers_spec l st (fun p hp => (hbound p hp).1)
  constructor
  · rw [h1]
    exact List.pairwise_lt_range' _ _
  · rw [h2, List.map_append]
    have e1 : (st.users.map (fun p => p.2.id)) = st.users.map Prod.fst :=
      List.map_congr_left fun p hp => (hbound p hp).2
    have e2 : ((((st.createUsers l).1).map (fun u => (u.id, u))).map (fun p => p.2.id))
        = ((st.createUsers l).1).map User.id := by
      rw [List.map_map]
      rfl
    rw [e1, e2, h1, List.nodup_append]
    refine ⟨hnodup, List.nodup_range' _ _, ?_⟩
    intro a ha ha2
    have hlt : a < st.userIdCounter := by
      obtain ⟨p, hp, hpe⟩ := List.mem_map.mp ha
      exact hpe ▸ (hbound p hp).1
    rw [List.mem_range'] at ha2
    omega

/-- Two concrete `createUser` calls used to witness C1. -/
def demoUserCalls : List (InsertUser × Nat) :=
  [({ username := "alice", password := "pw1", name := "Alice",
      email := "alice@example.com", phone := none, address := none }, 5),
   ({ username := "bob", password := "pw2", name := "Bob",
      email := "bob@example.com", phone := some "123", address := none }, 6)]

/-- Witness for C1: the constructor state satisfies the invariant and the
conclusion holds for two concrete calls. -/
theorem createUser_ids_strictly_increasing_unique_witness :
    UsersInv MemStorage.empty ∧
    ((((MemStorage.empty.createUsers demoUserCalls).1).map User.id).Pairwise (· < ·) ∧
     (((MemStorage.empty.createUsers demoUserCalls).2).users.map
       (fun p => p.2.id)).Nodup) :=
  ⟨by decide,
   createUser_ids_strictly_increasing_unique MemStorage.empty demoUserCalls (by decide)⟩

/-- C2: on the seeded V0 store, `getServicesByCategory c` is a sublist of
`getServices` (hence preserves insertion order) and holds exactly the stored
services whose category equals `c`. -/
theorem getServicesByCategory_exact_filter_seeded (now : Nat) (c : String) :
    ((seededStateV0 now).getServicesByCategory c).Sublist
      ((seededStateV0 now).getServices) ∧
    ∀ s, s ∈ (seededStateV0 now).getServicesByCategory c ↔
      s ∈ (seededStateV0 now).getServices ∧ s.category = c := by
  constructor
  · simp only [MemStorage.getServicesByCategory, MemStorage.getServices]
    exact List.filter_sublist _
  · intro s
    simp [MemStorage.getServicesByCategory, MemStorage.getServices, List.mem_filter]

/-- C8: `getUserByUsername` (resp. `getUserByEmail`) succeeds exactly when some
stored user's username (resp. email) matches the query up to letter case, and
any user it returns is a stored user matching the query up to letter case. -/
theorem getUserByUsername_email_case_insensitive (st : MemStorage) (q : String) :
    ((st.getUserByUsername q).isSome = true ↔
      ∃ u ∈ st.users.values, u.username.toLower = q.toLower) ∧
    (∀ u, st.getUserByUsername q = some u →
      u ∈ st.users.values ∧ u.username.toLower = q.toLower) ∧
    ((st.getUserByEmail q).isSome = true ↔
      ∃ u ∈ st.users.values, u.email.toLower = q.toLower) ∧
    (∀ u, st.getUserByEmail q = some u →
      u ∈ st.users.values ∧ u.email.toLower = q.toLower) := by
  refine ⟨?_, ?_, ?_, ?_⟩
  · simp [MemStorage.getUserByUsername, List.find?_isSome]
  · intro u hu
    rw [MemStorage.getUserByUsername] at hu
    exact ⟨List.mem_of_find?_eq_some hu, by simpa using List.find?_some hu⟩
  · simp [MemStorage.getUserByEmail, List.find?_isSome]
  · intro u hu
    rw [MemStorage.getUserByEmail] at hu
    exact ⟨List.mem_of_find?_eq_some hu, by simpa using List.find?_some hu⟩

/-- C9: on a stored id, `updateOrderStatus` replaces only `status` and
`updated_at`, `updatePaymentStatus` replaces only `payment_status` and
`updated_at`; all remaining fields of the order, every other order, the key
sequence of the orders map, and the users and services maps are unchanged. -/
theorem updateOrderStatus_paymentStatus_frame (st : MemStorage) (id : Nat)
    (s : String) (now : Nat) (o : Order) (h : st.orders.get id = some o) :
    (st.updateOrderStatus id s now).1 = some { o with status := s, updated_at := now } ∧
    ((st.updateOrderStatus id s now).2).orders.get id =
      some { o with status := s, updated_at := now } ∧
    (∀ j, j ≠ id → ((st.updateOrderStatus id s now).2).orders.get j = st.orders.get j) ∧
    ((st.updateOrderStatus id s now).2).orders.keys = st.orders.keys ∧
    ((st.updateOrderStatus id s now).2).users = st.users ∧
    ((st.updateOrderStatus id s now).2).services = st.services ∧
    (st.updatePaymentStatus id s now).1 =
      some { o with payment_status := s, updated_at := now } ∧
    ((st.updatePaymentStatus id s now).2).orders.get id =
      some { o with payment_status := s, updated_at := now } ∧
    (∀ j, j ≠ id → ((st.updatePaymentStatus id s now).2).orders.get j = st.orders.get j) ∧
    ((st.updatePaymentStatus id s now).2).orders.keys = st.orders.keys := by
  have hs : st.updateOrderStatus id s now =
      (some { o with status := s, updated_at := now },
       { st with orders := st.orders.insert id { o with status := s, updated_at := now } }) := by
    simp only [MemStorage.updateOrderStatus, h]
  have hp : st.updatePaymentStatus id s now =
      (some { o with payment_status := s, updated_at := now },
       { st with orders :=
          st.orders.insert id { o with payment_status := s, updated_at := now } }) := by
    simp only [MemStorage.updatePaymentStatus, h]
  have hsome : (st.orders.get id).isSome = true := by rw [h]; rfl
  refine ⟨by rw [hs], ?_, ?_, ?_, by rw [hs], by rw [hs], by rw [hp], ?_, ?_, ?_⟩
  · rw [hs]
    exact JsMap.get_insert_self _ _ _
  · intro j hj
    rw [hs]
    exact JsMap.get_insert_ne _ _ _ _ hj
  · rw [hs]
    exact JsMap.keys_insert_of_get_isSome _ _ _ hsome
  · rw [hp]
    exact JsMap.get_insert_self _ _ _
  · intro j hj
    rw [hp]
    exact JsMap.get_insert_ne _ _ _ _ hj
  · rw [hp]
    exact JsMap.keys_insert_of_get_isSome _ _ _ hsome

/-- A concrete order and one-order store used to witness C9. -/
def demoOrder : Order :=
  { id := 1, user_id := 7, status := "pending", payment_status := "pending",
    created_at := 3, updated_at := 3 }

/-- A store holding exactly `demoOrder`. -/
def demoOrdersState : MemStorage :=
  { MemStorage.empty with orders := [(1, demoOrder)], orderIdCounter := 2 }

/-- Witness for C9 at a concrete one-order store. -/
theorem updateOrderStatus_paymentStatus_frame_witness :
    demoOrdersState.orders.get 1 = some demoOrder ∧
    ((demoOrdersState.updateOrderStatus 1 "completed" 9).1 =
      some { demoOrder with status := "completed", updated_at := 9 } ∧
    ((demoOrdersState.updateOrderStatus 1 "completed" 9).2).orders.get 1 =
      some { demoOrder with status := "completed", updated_at := 9 } ∧
    (∀ j, j ≠ 1 → ((demoOrdersState.updateOrderStatus 1 "completed" 9).2).orders.get j =
      demoOrdersState.orders.get j) ∧
    ((demoOrdersState.updateOrderStatus 1 "completed" 9).2).orders.keys =
      demoOrdersState.orders.keys ∧
    ((demoOrdersState.updateOrderStatus 1 "completed" 9).2).users = demoOrdersState.users ∧
    ((demoOrdersState.updateOrderStatus 1 "completed" 9).2).services =
      demoOrdersState.services ∧
    (demoOrdersState.updatePaymentStatus 1 "completed" 9).1 =
      some { demoOrder with payment_status := "completed", updated_at := 9 } ∧
    ((demoOrdersState.updatePaymentStatus 1 "completed" 9).2).orders.get 1 =
      some { demoOrder with payment_status := "completed", updated_at := 9 } ∧
    (∀ j, j ≠ 1 → ((demoOrdersState.updatePaymentStatus 1 "completed" 9).2).orders.get j =
      demoOrdersState.orders.get j) ∧
    ((demoOrdersState.updatePaymentStatus 1 "completed" 9).2).orders.keys =
      demoOrdersState.orders.keys) :=
  ⟨rfl, updateOrderStatus_paymentStatus_frame demoOrdersState 1 "completed" 9 demoOrder rfl⟩

/-- C10: when no stored order has the given id, both update methods return
`undefined` and leave the whole state exactly as it was. -/
theorem updateStatus_unknown_id_noop (st : MemStorage) (id : Nat) (s : String)
    (now : Nat) (h : st.orders.get id = none) :
    st.updateOrderStatus id s now = (none, st) ∧
    st.updatePaymentStatus id s now = (none, st) := by
  constructor
  · simp only [MemStorage.updateOrderStatus, h]
  · simp only [MemStorage.updatePaymentStatus, h]

/-- Witness for C10 at the constructor state and an absent id. -/
theorem updateStatus_unknown_id_noop_witness :
    MemStorage.empty.orders.get 5 = none ∧
    (MemStorage.empty.updateOrderStatus 5 "completed" 4 = (none, MemStorage.empty) ∧
     MemStorage.empty.updatePaymentStatus 5 "completed" 4 = (none, MemStorage.empty)) :=
  ⟨rfl, updateStatus_unknown_id_noop MemStorage.empty 5 "completed" 4 rfl⟩

/-- Names of the services created by a `createService` cascade: exactly the
names of the insert payloads, in order. -/
theorem map_name_zipWith_mkService (l : List InsertService) (r : List Nat) (now : Nat)
    (h : r.length = l.length) :
    (List.zipWith (fun ins i => mkService ins i now) l r).map Service.name =
      l.map InsertService.name := by
  induction l generalizing r with
  | nil => simp
  | cons hd tl ih =>
    cases r with
    | nil => simp at h
    | cons rh rt =>
      simp only [List.length_cons] at h
      simp only [List.zipWith_cons_cons, List.map_cons, ih rt (by omega)]
      rfl

/-- Ids of the services created by a `createService` cascade: exactly the id
list it was zipped with. -/
theorem map_id_zipWith_mkService (l : List InsertService) (r : List Nat) (now : Nat)
    (h : r.length = l.length) :
    (List.zipWith (fun ins i => mkService ins i now) l r).map Service.id = r := by
  induction l generalizing r with
  | nil =>
    cases r with
    | nil => simp
    | cons rh rt => simp at h
  | cons hd tl ih =>
    cases r with
    | nil => simp at h
    | cons rh rt =>
      simp only [List.length_cons] at h
      simp only [List.zipWith_cons_cons, List.map_cons, ih rt (by omega)]
      rfl

/-- C3 (amended): every V1 `getServices` call re-inserts the seed catalog into
the services map through `createService` with fresh, still-increasing ids —
appending the catalog records rather than discarding the existing ones: old
keys still map to their old records, the returned records carry the seed
names, and the id counter advances by the catalog length, so the duplicated
seed records get distinct ids. -/
theorem getServices_v1_appends_seed_catalog (st : MemStorage) (now : Nat)
    (h : ServicesBound st) :
    ((V1.MemStorage.getServices st now).2).services =
      st.services ++ ((V1.MemStorage.getServices st now).1).map (fun s => (s.id, s)) ∧
    ((V1.MemStorage.getServices st now).1).map Service.name =
      V1.seedServices.map InsertService.name ∧
    ((V1.MemStorage.getServices st now).2).serviceIdCounter =
      st.serviceIdCounter + V1.seedServices.length ∧
    ∀ k, k < st.serviceIdCounter →
      ((V1.MemStorage.getServices st now).2).services.get k = st.services.get k := by
  obtain ⟨h1, h2, h3⟩ := createServicesFold_spec V1.seedServices st now h
  simp only [V1.MemStorage.getServices]
  refine ⟨h2, ?_, h3, ?_⟩
  · rw [h1]
    exact map_name_zipWith_mkService _ _ _ (List.length_range' _ _ _)
  · intro k hk
    rw [h2, JsMap.get_append]
    have hkeys : ∀ p ∈ ((createServicesFold st V1.seedServices now).1).map
        (fun s => (s.id, s)), p.1 ≠ k := by
      intro p hp
      obtain ⟨s, hs, rfl⟩ := List.mem_map.mp hp
      have hid : s.id ∈ ((createServicesFold st V1.seedServices now).1).map Service.id :=
        List.mem_map_of_mem _ hs
      rw [h1, map_id_zipWith_mkService _ _ _ (List.length_range' _ _ _)] at hid
      rw [List.mem_range'] at hid
      obtain ⟨i, hi, he⟩ := hid
      simp only []
      omega
    rw [JsMap.get_eq_none _ _ hkeys, Option.or_none]

/-- Witness for C3\x27s amended claim at the V1 constructor state (in V1 the
constructor inserts nothing into the services map). -/
theorem getServices_v1_appends_seed_catalog_witness :
    ServicesBound MemStorage.empty ∧
    (((V1.MemStorage.getServices MemStorage.empty 0).2).services =
      MemStorage.empty.services ++
        ((V1.MemStorage.getServices MemStorage.empty 0).1).map (fun s => (s.id, s)) ∧
    ((V1.MemStorage.getServices MemStorage.empty 0).1).map Service.name =
      V1.seedServices.map InsertService.name ∧
    ((V1.MemStorage.getServices MemStorage.empty 0).2).serviceIdCounter =
      MemStorage.empty.serviceIdCounter + V1.seedServices.length ∧
    ∀ k, k < MemStorage.empty.serviceIdCounter →
      ((V1.MemStorage.getServices MemStorage.empty 0).2).services.get k =
        MemStorage.empty.services.get k) :=
  ⟨by decide, getServices_v1_appends_seed_catalog MemStorage.empty 0 (by decide)⟩

/-- Counterexample to C3 as stated: after a second V1 `getServices` call, the
record the first call stored under id 1 is still present unchanged (existing
records are not discarded), and the stored ids are pairwise distinct (no id is
duplicated). -/
theorem getServices_v1_discard_duplicate_counterexample :
    ((((V1.MemStorage.getServices
          ((V1.MemStorage.getServices MemStorage.empty 0).2) 0).2).services.get 1 =
        ((V1.MemStorage.getServices MemStorage.empty 0).2).services.get 1) ∧
     ((((V1.MemStorage.getServices MemStorage.empty 0).2).services.get 1).isSome = true) ∧
     ((((V1.MemStorage.getServices
          ((V1.MemStorage.getServices MemStorage.empty 0).2) 0).2).services.keys).Nodup)) :=
  ⟨rfl, rfl, by decide⟩

/-- C4: a failed save (non-ok response or rejected fetch) leaves the displayed
auth-context values untouched and keeps the component in edit mode. -/
theorem handleSave_failure_preserves_values_and_edit_mode
    (st : ProfileCardState) (res : SaveResult) (hres : res ≠ SaveResult.ok)
    (hedit : st.isEditing = true) :
    (handleSave st res).1.user = st.user ∧ (handleSave st res).1.isEditing = true := by
  cases res with
  | ok => exact absurd rfl hres
  | httpError => exact ⟨rfl, hedit⟩
  | networkError => exact ⟨rfl, hedit⟩

/-- A concrete editing state used to witness C4. -/
def demoProfileState : ProfileCardState :=
  { user := { name := "Test User", email := "test@example.com", phone := "9876543210" },
    isEditing := true,
    formData := { name := "New Name", email := "new@example.com", phone := "1112223334" } }

/-- Witness for C4 at a concrete editing state and a non-ok response. -/
theorem handleSave_failure_preserves_values_and_edit_mode_witness :
    SaveResult.httpError ≠ SaveResult.ok ∧ demoProfileState.isEditing = true ∧
    ((handleSave demoProfileState SaveResult.httpError).1.user = demoProfileState.user ∧
     (handleSave demoProfileState SaveResult.httpError).1.isEditing = true) :=
  ⟨by decide, rfl,
   handleSave_failure_preserves_values_and_edit_mode demoProfileState SaveResult.httpError
     (by decide) rfl⟩

/-- A concrete editing state used for C5. -/
def demoProfileState2 : ProfileCardState :=
  { user := { name := "Admin User", email := "admin@quicktech.com", phone := "9876543211" },
    isEditing := true,
    formData := { name := "Other Name", email := "other@example.com", phone := "2223334445" } }

/-- Counterexample to C5 as stated: at a concrete editing state, a failed save
does not revert to the non-edit state — `isEditing` stays `true`, not
`false`. -/
theorem handleSave_failure_leaves_edit_mode_counterexample :
    ¬ ((handleSave demoProfileState2 SaveResult.networkError).1.isEditing = false) := by
  decide

/-- C5 (amended): on failure of the save\x27s network write the component stays
in its current edit state — it does not leave edit mode — and notifies the
user with the destructive "Update Failed" toast. -/
theorem handleSave_failure_stays_editing_and_notifies
    (st : ProfileCardState) (res : SaveResult) (hres : res ≠ SaveResult.ok) :
    (handleSave st res).1.isEditing = st.isEditing ∧
    (handleSave st res).2.2 =
      [{ title := "Update Failed",
         description := "Failed to update profile. Please try again.",
         destructive := true }] := by
  cases res with
  | ok => exact absurd rfl hres
  | httpError => exact ⟨rfl, rfl⟩
  | networkError => exact ⟨rfl, rfl⟩

/-- Witness for C5\x27s amended claim at a concrete editing state. -/
theorem handleSave_failure_stays_editing_and_notifies_witness :
    SaveResult.httpError ≠ SaveResult.ok ∧
    ((handleSave demoProfileState2 SaveResult.httpError).1.isEditing =
      demoProfileState2.isEditing ∧
     (handleSave demoProfileState2 SaveResult.httpError).2.2 =
      [{ title := "Update Failed",
         description := "Failed to update profile. Please try again.",
         destructive := true }]) :=
  ⟨by decide,
   handleSave_failure_stays_editing_and_notifies demoProfileState2 SaveResult.httpError
     (by decide)⟩

/-- C6: every save issues exactly one request — a `PUT` to `/api/user/profile`
whose body holds exactly the fields `name`, `email` and `phone` with the
values currently in the form state, unmodified. -/
theorem handleSave_single_put_exact_body (st : ProfileCardState) (res : SaveResult) :
    (handleSave st res).2.1 = [profileRequest st.formData] ∧
    (profileRequest st.formData).method = "PUT" ∧
    (profileRequest st.formData).url = "/api/user/profile" ∧
    (profileRequest st.formData).body =
      [("name", st.formData.name), ("email", st.formData.email),
       ("phone", st.formData.phone)] := by
  refine ⟨?_, rfl, rfl, rfl⟩
  cases res <;> rfl

/-- C7: the referral link — also the exact text handed to the clipboard on
copy — is the current origin, then `/auth?ref=`, then the user\x27s referral
code, with both embedded unmodified. -/
theorem referralLink_embeds_origin_and_code (origin code : String) (writeOk : Bool) :
    referralLink origin code = origin ++ "/auth?ref=" ++ code ∧
    (copyToClipboard origin code writeOk).1 = origin ++ "/auth?ref=" ++ code := by
  have h : referralLink origin code = origin ++ "/auth?ref=" ++ code := by
    unfold referralLink
    show "" ++ origin ++ "/auth?ref=" ++ code ++ "" = origin ++ "/auth?ref=" ++ code
    rw [String.empty_append, String.append_empty]
  exact ⟨h, h⟩

end QuickTech
